import Mathlib

/-!
# Verification of the category-encoding and feature-assembly pipeline

Shallow embedding of the in-scope core of `src/app.py`: the category
encoder registry built with `sklearn.preprocessing.LabelEncoder` over the
object-dtype columns of the reference dataset (`encoders`, lines 829-834),
the per-locale option catalogs `STRUCT_TYPES_BY_LANG` / `OCC_TYPES_BY_LANG`
(lines 752-825 and 836-901), the label-to-code resolution of the two
selectboxes (lines 907-917), the feature-vector assembly `X`
(lines 924-931), and the `damage_map` enumeration (lines 937-949).

Strings are Lean `String`s; the order used by `numpy` when sorting the
distinct categorical values is codepoint-lexicographic comparison, embedded
as the lexicographic order on `String.data : List Char`.  Real-valued
inputs (`magnitude`, `distance`) are embedded as rationals; no claim here
depends on floating-point rounding.  Failures (sklearn `ValueError` on an
unseen label, dict `KeyError`) are embedded as `Except` error kinds using
the taxonomy the spec gives to those raw failures.
-/

namespace App

/-- Codepoint-lexicographic order on strings: exactly how `numpy` compares
unicode strings when `LabelEncoder.fit` sorts the distinct values. -/
def strLe (a b : String) : Prop := a.data ≤ b.data

instance (a b : String) : Decidable (strLe a b) :=
  inferInstanceAs (Decidable (a.data ≤ b.data))

instance : DecidableRel strLe :=
  fun a b => inferInstanceAs (Decidable (a.data ≤ b.data))

theorem strLe_data_eq {a b : String} (h : a.data = b.data) : a = b := by
  cases a; cases b; exact congrArg String.mk h

instance : IsTotal String strLe := ⟨fun a b => le_total a.data b.data⟩

instance : IsTrans String strLe := ⟨fun _ _ _ h1 h2 => le_trans h1 h2⟩

instance : IsAntisymm String strLe :=
  ⟨fun _ _ h1 h2 => strLe_data_eq (le_antisymm h1 h2)⟩

/-- `LabelEncoder.fit` (the fitting half of `le.fit_transform(data[col])`,
`src/app.py` lines 829-834): `classes_ = np.unique(column)`, i.e. the
distinct raw values of the column sorted lexicographically. -/
def fitClasses (vals : List String) : List String :=
  (vals.dedup).insertionSort strLe

/-- `LabelEncoder.transform` on a single value: the position of `v` in the
sorted `classes_` array, `none` when `v` was never observed (sklearn raises
`ValueError: y contains previously unseen labels`). -/
def transform (classes : List String) (v : String) : Option Nat :=
  match classes with
  | [] => none
  | c :: cs => if c = v then some 0 else (transform cs v).map (· + 1)

/-- `LabelEncoder.inverse_transform` on a single code: the raw string at
that position of `classes_`. -/
def inverse_transform (classes : List String) (i : Nat) : Option String :=
  classes[i]?

/-- The error taxonomy of the spec (§7): the explicit names given to the
raw failures of the source (pandas read failure / dict `KeyError` at
startup, sklearn `ValueError` on an unseen category, locale-catalog lookup
failure). -/
inductive PipelineError
  | DataIntegrityError
  | UnknownCategoryError
  | UnknownOptionError
  deriving DecidableEq, Repr

/-- `encode(fieldName-resolved classes, rawValue)`: sklearn `transform`
with its unseen-label `ValueError` surfaced as `UnknownCategoryError`. -/
def encode (classes : List String) (v : String) : Except PipelineError Nat :=
  match transform classes v with
  | some i => Except.ok i
  | none => Except.error PipelineError.UnknownCategoryError

/-- Python dict lookup (`d[k]` / `d.get(k)`) on an insertion-ordered
association list. -/
def alookup {β : Type} (m : List (String × β)) (k : String) : Option β :=
  match m with
  | [] => none
  | (k', v) :: rest => if k' = k then some v else alookup rest k

/-- The encoder registry: `encoders[col] = le` for each object-dtype
column, embedded as column name paired with the fitted `classes_`. -/
def buildEncoders (cols : List (String × List String)) : List (String × List String) :=
  cols.map (fun c => (c.1, fitClasses c.2))

/-- `encoders[field].transform([v])[0]`: registry lookup then encode; a
missing column key (`KeyError`) is the spec's `DataIntegrityError`. -/
def encodeField (reg : List (String × List String)) (field v : String) :
    Except PipelineError Nat :=
  match alookup reg field with
  | some classes => encode classes v
  | none => Except.error PipelineError.DataIntegrityError

/-- Stateful view of one encode call: the registry is threaded through
explicitly.  `le.transform` reads the fitted encoder and never writes it,
so the returned registry is the input registry. -/
def encodeFieldSt (reg : List (String × List String)) (field v : String) :
    Except PipelineError Nat × List (String × List String) :=
  (encodeField reg field v, reg)

/-- `OCC_TYPES_BY_LANG` (`src/app.py` lines 752-825): per locale, display
label → family of canonical occupancy sub-codes, in source order. -/
def OCC_TYPES_BY_LANG : List (String × List (String × List String)) :=
  [ ("en",
     [ ("Residential", ["RES1", "RES3", "RES4"]),
       ("Commercial", ["COM1", "COM2", "COM3", "COM4", "COM7", "COM8"]),
       ("Industrial", ["IND1", "IND2", "IND3"]),
       ("Agricultural", ["AGR1"]),
       ("Educational", ["EDU1"]),
       ("Religious", ["REL1"]),
       ("Governmental", ["GOV1"]) ]),
    ("tr",
     [ ("Konut (Residential)", ["RES1", "RES3", "RES4"]),
       ("Ticari (Commercial)", ["COM1", "COM2", "COM3", "COM4", "COM7", "COM8"]),
       ("Endüstriyel (Industrial)", ["IND1", "IND2", "IND3"]),
       ("Tarımsal (Agricultural)", ["AGR1"]),
       ("Eğitim (Educational)", ["EDU1"]),
       ("Dini (Religious)", ["REL1"]),
       ("Kamu (Governmental)", ["GOV1"]) ]),
    ("fr",
     [ ("Résidentiel", ["RES1", "RES3", "RES4"]),
       ("Commercial", ["COM1", "COM2", "COM3", "COM4", "COM7", "COM8"]),
       ("Industriel", ["IND1", "IND2", "IND3"]),
       ("Agricole", ["AGR1"]),
       ("Éducatif", ["EDU1"]),
       ("Religieux", ["REL1"]),
       ("Gouvernemental", ["GOV1"]) ]),
    ("de",
     [ ("Wohngebäude", ["RES1", "RES3", "RES4"]),
       ("Gewerblich", ["COM1", "COM2", "COM3", "COM4", "COM7", "COM8"]),
       ("Industriell", ["IND1", "IND2", "IND3"]),
       ("Landwirtschaftlich", ["AGR1"]),
       ("Bildungseinrichtung", ["EDU1"]),
       ("Religiös", ["REL1"]),
       ("Staatlich", ["GOV1"]) ]),
    ("zh",
     [ ("住宅 (Residential)", ["RES1", "RES3", "RES4"]),
       ("商业 (Commercial)", ["COM1", "COM2", "COM3", "COM4", "COM7", "COM8"]),
       ("工业 (Industrial)", ["IND1", "IND2", "IND3"]),
       ("农业 (Agricultural)", ["AGR1"]),
       ("教育 (Educational)", ["EDU1"]),
       ("宗教 (Religious)", ["REL1"]),
       ("政府 (Governmental)", ["GOV1"]) ]),
    ("ru",
     [ ("Жилое (Residential)", ["RES1", "RES3", "RES4"]),
       ("Коммерческое (Commercial)", ["COM1", "COM2", "COM3", "COM4", "COM7", "COM8"]),
       ("Промышленное (Industrial)", ["IND1", "IND2", "IND3"]),
       ("Сельскохозяйственное (Agricultural)", ["AGR1"]),
       ("Образовательное (Educational)", ["EDU1"]),
       ("Религиозное (Religious)", ["REL1"]),
       ("Государственное (Governmental)", ["GOV1"]) ]),
    ("fa",
     [ ("مسکونی", ["RES1", "RES3", "RES4"]),
       ("تجاری", ["COM1", "COM2", "COM3", "COM4", "COM7", "COM8"]),
       ("صنعتی", ["IND1", "IND2", "IND3"]),
       ("کشاورزی", ["AGR1"]),
       ("آموزشی", ["EDU1"]),
       ("مذهبی", ["REL1"]),
       ("دولتی", ["GOV1"]) ]),
    ("ar",
     [ ("سكني", ["RES1", "RES3", "RES4"]),
       ("تجاري", ["COM1", "COM2", "COM3", "COM4", "COM7", "COM8"]),
       ("صناعي", ["IND1", "IND2", "IND3"]),
       ("زراعي", ["AGR1"]),
       ("تعليمي", ["EDU1"]),
       ("ديني", ["REL1"]),
       ("حكومي", ["GOV1"]) ]) ]

/-- `STRUCT_TYPES_BY_LANG` (`src/app.py` lines 836-901): per locale,
display label → canonical structural-type code, in source order. -/
def STRUCT_TYPES_BY_LANG : List (String × List (String × String)) :=
  [ ("en",
     [ ("Unreinforced Masonry (URM)", "URM"),
       ("Steel Moment Frame (S1)", "S1"),
       ("Reinforced Concrete Moment Frame (C4)", "C4"),
       ("Wooden Frame (W1)", "W1"),
       ("Precast Concrete (PC1)", "PC1"),
       ("Reinforced Concrete Shear Wall (C1)", "C1") ]),
    ("tr",
     [ ("Yığma (URM)", "URM"),
       ("Çelik Moment Çerçeve (S1)", "S1"),
       ("Betonarme Moment Çerçeve (C4)", "C4"),
       ("Ahşap Çerçeve (W1)", "W1"),
       ("Ön Dökümlü Beton (PC1)", "PC1"),
       ("Betonarme Perde Duvar (C1)", "C1") ]),
    ("fr",
     [ ("Maçonnerie non armée (URM)", "URM"),
       ("Charpente métallique à portique (S1)", "S1"),
       ("Portique en béton armé (C4)", "C4"),
       ("Structure en bois (W1)", "W1"),
       ("Béton préfabriqué (PC1)", "PC1"),
       ("Voiles en béton armé (C1)", "C1") ]),
    ("de",
     [ ("Unbewehrtes Mauerwerk (URM)", "URM"),
       ("Stahlmomentrahmen (S1)", "S1"),
       ("Stahlbetonmomentrahmen (C4)", "C4"),
       ("Holzrahmen (W1)", "W1"),
       ("Fertigbetonbau (PC1)", "PC1"),
       ("Stahlbeton-Scheibenwand (C1)", "C1") ]),
    ("zh",
     [ ("未加固砌体结构 (URM)", "URM"),
       ("钢框架结构 (S1)", "S1"),
       ("钢筋混凝土框架 (C4)", "C4"),
       ("木结构框架 (W1)", "W1"),
       ("预制混凝土结构 (PC1)", "PC1"),
       ("钢筋混凝土剪力墙 (C1)", "C1") ]),
    ("ru",
     [ ("Ненармированная кладка (URM)", "URM"),
       ("Стальной рамный каркас (S1)", "S1"),
       ("Железобетонный рамный каркас (C4)", "C4"),
       ("Деревянный каркас (W1)", "W1"),
       ("Сборный железобетон (PC1)", "PC1"),
       ("Железобетонные стены-диафрагмы (C1)", "C1") ]),
    ("fa",
     [ ("مصالح بنایی بدون مسلح (URM)", "URM"),
       ("قاب خمشی فولادی (S1)", "S1"),
       ("قاب خمشی بتن‌آرمه (C4)", "C4"),
       ("قاب چوبی (W1)", "W1"),
       ("بتن پیش‌ساخته (PC1)", "PC1"),
       ("دیوار برشی بتن‌آرمه (C1)", "C1") ]),
    ("ar",
     [ ("مباني طوب غير مسلحة (URM)", "URM"),
       ("إطار لحظي فولاذي (S1)", "S1"),
       ("إطار لحظي خرسانة مسلحة (C4)", "C4"),
       ("إطار خشبي (W1)", "W1"),
       ("خرسانة مسبقة الصب (PC1)", "PC1"),
       ("جدار قص خرسانة مسلحة (C1)", "C1") ]) ]

/-- `occ_type_display = OCC_TYPES_BY_LANG.get(lang, OCC_TYPES_BY_LANG["en"])`
(line 827); the `"en"` key is present, so the inner default never fires. -/
def occ_type_display (lang : String) : List (String × List String) :=
  match alookup OCC_TYPES_BY_LANG lang with
  | some d => d
  | none => (alookup OCC_TYPES_BY_LANG "en").getD []

/-- `struct_type_display = STRUCT_TYPES_BY_LANG.get(lang, STRUCT_TYPES_BY_LANG["en"])`
(line 903). -/
def struct_type_display (lang : String) : List (String × String) :=
  match alookup STRUCT_TYPES_BY_LANG lang with
  | some d => d
  | none => (alookup STRUCT_TYPES_BY_LANG "en").getD []

/-- `struct_typ = struct_type_display[struct_display_choice]` (line 911):
a label not in the locale's catalog is the spec's `UnknownOptionError`. -/
def resolveStruct (lang label : String) : Except PipelineError String :=
  match alookup (struct_type_display lang) label with
  | some c => Except.ok c
  | none => Except.error PipelineError.UnknownOptionError

/-- `occ_type_code = occ_type_display[occ_choice][0]` (line 917): the broad
label's family collapses to its first sub-code. -/
def resolveOcc (lang label : String) : Except PipelineError String :=
  match alookup (occ_type_display lang) label with
  | some fam =>
      match fam.head? with
      | some c => Except.ok c
      | none => Except.error PipelineError.UnknownOptionError
  | none => Except.error PipelineError.UnknownOptionError

/-- The feature vector `X` (`src/app.py` lines 924-931): encode the two
categorical codes through the registry, then lay out the six features in
the fixed training order. -/
def assemble (reg : List (String × List String)) (struct_typ occ_type_code : String)
    (year_built no_stories : ℤ) (magnitude distance : ℚ) :
    Except PipelineError (List ℚ) :=
  match encodeField reg "struct_typ" struct_typ with
  | Except.error e => Except.error e
  | Except.ok s =>
    match encodeField reg "occ_type" occ_type_code with
    | Except.error e => Except.error e
    | Except.ok o =>
      Except.ok [(s : ℚ), (o : ℚ), (year_built : ℚ), (no_stories : ℚ), magnitude, distance]

/-- The full path from a locale's display labels to the feature vector
(lines 907-931): selectbox label → canonical code → encoded vector. -/
def assembleFromLabels (reg : List (String × List String))
    (lang structLabel occLabel : String)
    (year_built no_stories : ℤ) (magnitude distance : ℚ) :
    Except PipelineError (List ℚ) :=
  match resolveStruct lang structLabel with
  | Except.error e => Except.error e
  | Except.ok sc =>
    match resolveOcc lang occLabel with
    | Except.error e => Except.error e
    | Except.ok oc => assemble reg sc oc year_built no_stories magnitude distance

/-- The three damage classes displayed by the app. -/
inductive DamageClass
  | Safe
  | HighRisk
  | Collapsed
  deriving DecidableEq, Repr

/-- `damage_map = {0: safe, 1: high_risk, 2: collapsed}` applied to
`int(damage_class_pred)` (`src/app.py` lines 937-949); any other label
would be a dict `KeyError`, embedded as `none`. -/
def damage_map (n : ℤ) : Option DamageClass :=
  if n = 0 then some DamageClass.Safe
  else if n = 1 then some DamageClass.HighRisk
  else if n = 2 then some DamageClass.Collapsed
  else none

/-! ## Infrastructure lemmas -/

theorem transform_cons (c : String) (cs : List String) (v : String) :
    transform (c :: cs) v = if c = v then some 0 else (transform cs v).map (· + 1) := rfl

theorem alookup_cons {β : Type} (k' : String) (v : β) (rest : List (String × β)) (k : String) :
    alookup ((k', v) :: rest) k = if k' = k then some v else alookup rest k := rfl

theorem perm_fitClasses (vals : List String) : List.Perm (fitClasses vals) vals.dedup :=
  List.perm_insertionSort _ _

theorem mem_fitClasses {vals : List String} {v : String} :
    v ∈ fitClasses vals ↔ v ∈ vals := by
  rw [(perm_fitClasses vals).mem_iff, List.mem_dedup]

theorem nodup_fitClasses (vals : List String) : (fitClasses vals).Nodup :=
  ((perm_fitClasses vals).nodup_iff).mpr vals.nodup_dedup

theorem sorted_fitClasses (vals : List String) : List.Sorted strLe (fitClasses vals) :=
  List.sorted_insertionSort _ _

theorem fitClasses_eq_of_perm {vals l : List String}
    (h : List.Perm vals.dedup l) (hs : List.Sorted strLe l) : fitClasses vals = l :=
  List.eq_of_perm_of_sorted ((perm_fitClasses vals).trans h) (sorted_fitClasses vals) hs

theorem transform_eq_none {classes : List String} {v : String} :
    transform classes v = none ↔ v ∉ classes := by
  induction classes with
  | nil => simp [transform]
  | cons c cs ih =>
    rw [transform_cons]
    by_cases h : c = v
    · subst h; simp
    · simp only [if_neg h, Option.map_eq_none', ih, List.mem_cons]
      constructor
      · intro hn hor
        rcases hor with he | hm
        · exact h he.symm
        · exact hn hm
      · intro hn hm
        exact hn (Or.inr hm)

theorem transform_isSome {classes : List String} {v : String} (h : v ∈ classes) :
    ∃ i, transform classes v = some i := by
  cases ht : transform classes v with
  | none => exact absurd (transform_eq_none.mp ht) (not_not.mpr h)
  | some i => exact ⟨i, rfl⟩

theorem transform_getElem {classes : List String} {v : String} {i : Nat}
    (h : transform classes v = some i) : classes[i]? = some v := by
  induction classes generalizing i with
  | nil => simp [transform] at h
  | cons c cs ih =>
    rw [transform_cons] at h
    by_cases hc : c = v
    · rw [if_pos hc] at h
      cases h
      simpa using hc
    · rw [if_neg hc, Option.map_eq_some'] at h
      obtain ⟨j, hj, rfl⟩ := h
      simpa using ih hj

theorem transform_get {classes : List String} (hnd : classes.Nodup)
    (i : Nat) (hi : i < classes.length) :
    transform classes (classes.get ⟨i, hi⟩) = some i := by
  induction classes generalizing i with
  | nil => simp at hi
  | cons c cs ih =>
    cases i with
    | zero => simp [transform_cons]
    | succ j =>
      have hj : j < cs.length := by simpa using hi
      have hcs : c ∉ cs := (List.nodup_cons.mp hnd).1
      have hget : (c :: cs).get ⟨j + 1, hi⟩ = cs.get ⟨j, hj⟩ := rfl
      have hne : c ≠ (c :: cs).get ⟨j + 1, hi⟩ := by
        rw [hget]
        intro he
        exact hcs (he ▸ List.get_mem cs j hj)
      rw [transform_cons, if_neg hne, hget, ih (List.nodup_cons.mp hnd).2 j hj]
      rfl

theorem transform_inj {classes : List String} {v w : String} {i : Nat}
    (hv : transform classes v = some i) (hw : transform classes w = some i) : v = w := by
  have h1 := transform_getElem hv
  have h2 := transform_getElem hw
  rw [h1] at h2
  exact Option.some.inj h2

theorem alookup_mem {β : Type} {m : List (String × β)} {k : String} {b : β}
    (h : alookup m k = some b) : (k, b) ∈ m := by
  induction m with
  | nil => simp [alookup] at h
  | cons p rest ih =>
    obtain ⟨k', v⟩ := p
    rw [alookup_cons] at h
    by_cases hk : k' = k
    · rw [if_pos hk] at h
      cases h
      subst hk
      exact List.mem_cons_self _ _
    · rw [if_neg hk] at h
      exact List.mem_cons_of_mem _ (ih h)

theorem mem_of_getElem? {l : List String} {i : Nat} {a : String}
    (h : l[i]? = some a) : a ∈ l := by
  induction l generalizing i with
  | nil => simp at h
  | cons c cs ih =>
    cases i with
    | zero =>
      simp only [List.getElem?_cons_zero, Option.some.injEq] at h
      exact h ▸ List.mem_cons_self c cs
    | succ j =>
      rw [List.getElem?_cons_succ] at h
      exact List.mem_cons_of_mem _ (ih h)

theorem alookup_buildEncoders (cols : List (String × List String)) (f : String) :
    alookup (buildEncoders cols) f = (alookup cols f).map fitClasses := by
  induction cols with
  | nil => rfl
  | cons c rest ih =>
    obtain ⟨name, vals⟩ := c
    show alookup ((name, fitClasses vals) :: buildEncoders rest) f = _
    rw [alookup_cons, alookup_cons]
    by_cases h : name = f
    · rw [if_pos h, if_pos h]
      rfl
    · rw [if_neg h, if_neg h, ih]

theorem encode_ok_iff {classes : List String} {v : String} {i : Nat} :
    encode classes v = Except.ok i ↔ transform classes v = some i := by
  unfold encode
  cases ht : transform classes v <;> simp

theorem encode_error_iff {classes : List String} {v : String} :
    encode classes v = Except.error PipelineError.UnknownCategoryError ↔ v ∉ classes := by
  unfold encode
  rw [← transform_eq_none]
  cases ht : transform classes v <;> simp

theorem alookup_isSome_of_mem_keys {β : Type} {m : List (String × β)} {k : String}
    (h : k ∈ m.map Prod.fst) : ∃ b, alookup m k = some b := by
  induction m with
  | nil => simp at h
  | cons p rest ih =>
    obtain ⟨k', v⟩ := p
    rw [alookup_cons]
    by_cases hk : k' = k
    · exact ⟨v, if_pos hk⟩
    · rcases List.mem_map.mp h with ⟨q, hq, hqk⟩
      rcases List.mem_cons.mp hq with rfl | hq'
      · exact absurd hqk hk
      · rw [if_neg hk]
        exact ih (List.mem_map.mpr ⟨q, hq', hqk⟩)

theorem occ_display_mem (lang : String) :
    occ_type_display lang ∈ OCC_TYPES_BY_LANG.map Prod.snd := by
  unfold occ_type_display
  cases hl : alookup OCC_TYPES_BY_LANG lang with
  | some d => exact List.mem_map.mpr ⟨(lang, d), alookup_mem hl, rfl⟩
  | none => decide

theorem struct_display_mem (lang : String) :
    struct_type_display lang ∈ STRUCT_TYPES_BY_LANG.map Prod.snd := by
  unfold struct_type_display
  cases hl : alookup STRUCT_TYPES_BY_LANG lang with
  | some d => exact List.mem_map.mpr ⟨(lang, d), alookup_mem hl, rfl⟩
  | none => decide

theorem occ_catalog_families_nonempty :
    ∀ cat ∈ OCC_TYPES_BY_LANG.map Prod.snd, ∀ p ∈ cat, p.2 ≠ ([] : List String) := by
  decide

theorem occ_catalog_first_mem :
    ∀ cat ∈ OCC_TYPES_BY_LANG.map Prod.snd, ∀ p ∈ cat,
      p.2.headD "" ∈ ["RES1", "COM1", "IND1", "AGR1", "EDU1", "REL1", "GOV1"] := by
  decide

theorem struct_catalog_code_mem :
    ∀ cat ∈ STRUCT_TYPES_BY_LANG.map Prod.snd, ∀ p ∈ cat,
      p.2 ∈ ["C1", "C4", "PC1", "S1", "URM", "W1"] := by
  decide

/-- A concrete registry used by the witnesses: the two categorical columns
fitted from sample reference values covering the canonical codes. -/
def regC : List (String × List String) :=
  buildEncoders
    [ ("struct_typ", ["W1", "URM", "C1", "S1", "PC1", "C4", "C1"]),
      ("occ_type", ["RES1", "COM1", "IND1", "AGR1", "EDU1", "REL1", "GOV1"]) ]

/-! ## Claim theorems -/

/-- C1: the encoder table built from a categorical column assigns integer
codes 0..k-1 to the k distinct raw string values in lexicographic order
(the table is duplicate-free, sorted, covers exactly the observed values,
and the value at position i encodes to i), rebuilding from the same data
yields the identical table, and when the distinct structural-type values
are {C1, C4, PC1, S1, URM, W1} the codes are C1:0, C4:1, PC1:2, S1:3,
URM:4, W1:5. -/
theorem C1_encoder_lexicographic_codes (vals : List String) :
    ((fitClasses vals).Nodup ∧ List.Sorted strLe (fitClasses vals) ∧
      (∀ v, v ∈ fitClasses vals ↔ v ∈ vals)) ∧
    (∀ i (hi : i < (fitClasses vals).length),
      transform (fitClasses vals) ((fitClasses vals).get ⟨i, hi⟩) = some i) ∧
    (∀ vals', vals' = vals → fitClasses vals' = fitClasses vals) ∧
    (List.Perm vals.dedup ["C1", "C4", "PC1", "S1", "URM", "W1"] →
      fitClasses vals = ["C1", "C4", "PC1", "S1", "URM", "W1"] ∧
      transform (fitClasses vals) "C1" = some 0 ∧
      transform (fitClasses vals) "C4" = some 1 ∧
      transform (fitClasses vals) "PC1" = some 2 ∧
      transform (fitClasses vals) "S1" = some 3 ∧
      transform (fitClasses vals) "URM" = some 4 ∧
      transform (fitClasses vals) "W1" = some 5) := by
  refine ⟨⟨nodup_fitClasses vals, sorted_fitClasses vals, fun v => mem_fitClasses⟩,
    fun i hi => transform_get (nodup_fitClasses vals) i hi,
    fun vals' h => by rw [h],
    fun hp => ?_⟩
  have he : fitClasses vals = ["C1", "C4", "PC1", "S1", "URM", "W1"] :=
    fitClasses_eq_of_perm hp (by decide)
  rw [he]
  decide

/-- C1 witness: the table fitted from a sample structural-type column with
a duplicate is the six sorted codes, and URM encodes to 4. -/
theorem C1_encoder_lexicographic_codes_witness :
    fitClasses ["W1", "URM", "C1", "S1", "PC1", "C4", "C1"] =
      ["C1", "C4", "PC1", "S1", "URM", "W1"] ∧
    transform (fitClasses ["W1", "URM", "C1", "S1", "PC1", "C4", "C1"]) "URM" = some 4 := by
  have h := (C1_encoder_lexicographic_codes
    ["W1", "URM", "C1", "S1", "PC1", "C4", "C1"]).2.2.2 (by decide)
  exact ⟨h.1, h.2.2.2.2.2.1⟩

/-- C2: any successful `assemble` run returns the vector of length exactly
6 in the fixed order [struct code, occ code, year, stories, magnitude,
distance], with the four numeric inputs unchanged at positions 2-5, and
the function is pure: the same call yields the same result. -/
theorem C2_assemble_fixed_order (reg : List (String × List String))
    (st oc : String) (yb ns : ℤ) (m d : ℚ) (v : List ℚ)
    (h : assemble reg st oc yb ns m d = Except.ok v) :
    v.length = 6 ∧
    (∃ s o, encodeField reg "struct_typ" st = Except.ok s ∧
      encodeField reg "occ_type" oc = Except.ok o ∧
      v = [(s : ℚ), (o : ℚ), (yb : ℚ), (ns : ℚ), m, d]) ∧
    v[2]? = some (yb : ℚ) ∧ v[3]? = some (ns : ℚ) ∧
    v[4]? = some m ∧ v[5]? = some d ∧
    assemble reg st oc yb ns m d = assemble reg st oc yb ns m d := by
  unfold assemble at h
  cases hs : encodeField reg "struct_typ" st with
  | error e => rw [hs] at h; cases h
  | ok s =>
    rw [hs] at h
    cases ho : encodeField reg "occ_type" oc with
    | error e => rw [ho] at h; cases h
    | ok o =>
      rw [ho] at h
      cases h
      exact ⟨rfl, ⟨s, o, rfl, rfl, rfl⟩, rfl, rfl, rfl, rfl, rfl⟩

/-- C2 witness: a concrete assembly against the sample registry. -/
theorem C2_assemble_fixed_order_witness :
    (([((4 : ℕ) : ℚ), ((6 : ℕ) : ℚ), ((2000 : ℤ) : ℚ), ((0 : ℤ) : ℚ), 5, 3] :
        List ℚ).length = 6) ∧
    ([((4 : ℕ) : ℚ), ((6 : ℕ) : ℚ), ((2000 : ℤ) : ℚ), ((0 : ℤ) : ℚ), 5,
        3] : List ℚ)[4]? = some 5 := by
  have h := C2_assemble_fixed_order regC "URM" "RES1" 2000 0 5 3
    [((4 : ℕ) : ℚ), ((6 : ℕ) : ℚ), ((2000 : ℤ) : ℚ), ((0 : ℤ) : ℚ), 5, 3] (by rfl)
  exact ⟨h.1, h.2.2.2.2.1⟩

/-- C3: a raw value never present in the reference column encodes to
`UnknownCategoryError` and never to any fabricated code. -/
theorem C3_unknown_category_error (vals : List String) (v : String) (h : v ∉ vals) :
    encode (fitClasses vals) v = Except.error PipelineError.UnknownCategoryError ∧
    ∀ i, encode (fitClasses vals) v ≠ Except.ok i := by
  have hm : v ∉ fitClasses vals := fun hm => h (mem_fitClasses.mp hm)
  refine ⟨encode_error_iff.mpr hm, fun i hc => hm ?_⟩
  exact mem_of_getElem? (transform_getElem (encode_ok_iff.mp hc))

/-- C3 witness: `UNKNOWN_CODE` was never observed, so it fails to encode. -/
theorem C3_unknown_category_error_witness :
    encode (fitClasses ["W1", "URM", "C1", "S1", "PC1", "C4", "C1"]) "UNKNOWN_CODE" =
      Except.error PipelineError.UnknownCategoryError :=
  (C3_unknown_category_error ["W1", "URM", "C1", "S1", "PC1", "C4", "C1"]
    "UNKNOWN_CODE" (by decide)).1

/-- C4: when two locales' display labels resolve to the same canonical
structural code and the same canonical occupancy code, the assembled
feature vectors are identical; the locale never reaches the vector. -/
theorem C4_locale_independence (reg : List (String × List String))
    (l1 l2 sl1 sl2 ol1 ol2 sc oc : String) (yb ns : ℤ) (m d : ℚ)
    (hs1 : resolveStruct l1 sl1 = Except.ok sc)
    (hs2 : resolveStruct l2 sl2 = Except.ok sc)
    (ho1 : resolveOcc l1 ol1 = Except.ok oc)
    (ho2 : resolveOcc l2 ol2 = Except.ok oc) :
    assembleFromLabels reg l1 sl1 ol1 yb ns m d =
      assembleFromLabels reg l2 sl2 ol2 yb ns m d := by
  unfold assembleFromLabels
  rw [hs1, hs2, ho1, ho2]

/-- C4 witness: the English and Turkish URM/Residential labels yield the
same vector against the sample registry. -/
theorem C4_locale_independence_witness :
    assembleFromLabels regC "en" "Unreinforced Masonry (URM)" "Residential" 2000 0 5 3 =
      assembleFromLabels regC "tr" "Yığma (URM)" "Konut (Residential)" 2000 0 5 3 :=
  C4_locale_independence regC "en" "tr" "Unreinforced Masonry (URM)" "Yığma (URM)"
    "Residential" "Konut (Residential)" "URM" "RES1" 2000 0 5 3
    (by rfl) (by rfl) (by rfl) (by rfl)

/-- C5: every occupancy label of every locale's catalog resolves to
exactly the first sub-code of its family; in particular a family equal to
{RES1, RES3, RES4} resolves to RES1. -/
theorem C5_first_of_group (lang label : String) (fam : List String)
    (h : alookup (occ_type_display lang) label = some fam) :
    (∃ c rest, fam = c :: rest ∧ resolveOcc lang label = Except.ok c) ∧
    (fam = ["RES1", "RES3", "RES4"] → resolveOcc lang label = Except.ok "RES1") := by
  have hfamne : fam ≠ [] :=
    occ_catalog_families_nonempty _ (occ_display_mem lang) (label, fam) (alookup_mem h)
  obtain ⟨c, rest, rfl⟩ := List.exists_cons_of_ne_nil hfamne
  constructor
  · refine ⟨c, rest, rfl, ?_⟩
    unfold resolveOcc
    rw [h]
    rfl
  · intro hf
    unfold resolveOcc
    rw [h, hf]
    rfl

/-- C5 witness: the Persian residential label resolves to RES1. -/
theorem C5_first_of_group_witness :
    resolveOcc "fa" "مسکونی" = Except.ok "RES1" :=
  (C5_first_of_group "fa" "مسکونی" ["RES1", "RES3", "RES4"] (by decide)).2 rfl

/-- C6: every raw value present in the fitted table round-trips through
encode then decode, and the table's codes identify raw values uniquely
(the mapping is injective into codes with `inverse_transform` as inverse). -/
theorem C6_roundtrip (vals : List String) (v : String) (hv : v ∈ vals) :
    (∃ i, encode (fitClasses vals) v = Except.ok i ∧
      inverse_transform (fitClasses vals) i = some v) ∧
    (∀ w i, encode (fitClasses vals) v = Except.ok i →
      encode (fitClasses vals) w = Except.ok i → v = w) := by
  obtain ⟨i, hi⟩ := transform_isSome (mem_fitClasses.mpr hv)
  refine ⟨⟨i, encode_ok_iff.mpr hi, transform_getElem hi⟩, fun w j hv' hw' => ?_⟩
  exact transform_inj (encode_ok_iff.mp hv') (encode_ok_iff.mp hw')

/-- C6 witness: PC1 encodes to 2 and decodes back to PC1. -/
theorem C6_roundtrip_witness :
    encode (fitClasses ["W1", "URM", "C1", "S1", "PC1", "C4", "C1"]) "PC1" =
      Except.ok 2 ∧
    inverse_transform (fitClasses ["W1", "URM", "C1", "S1", "PC1", "C4", "C1"]) 2 =
      some "PC1" := by
  obtain ⟨⟨i, hi, hd⟩, _⟩ :=
    C6_roundtrip ["W1", "URM", "C1", "S1", "PC1", "C4", "C1"] "PC1" (by decide)
  have : i = 2 := by
    have h2 : transform (fitClasses ["W1", "URM", "C1", "S1", "PC1", "C4", "C1"]) "PC1" =
        some 2 := by decide
    have := encode_ok_iff.mp hi
    rw [h2] at this
    exact (Option.some.inj this).symm
  subst this
  exact ⟨hi, hd⟩

/-- C7 counterexample: the registry construction the source actually
performs (`pd.read_csv` at lines 749-750 and the encoder loop at lines
829-834) does no validation.  A header-only dataset - both categorical
columns present but zero records - builds a registry of empty tables
instead of failing with `DataIntegrityError`, and a dataset whose columns
lack `struct_typ` entirely also builds without error; that field's absence
surfaces only at prediction time, as the registry-lookup `KeyError` of
line 925 (the `DataIntegrityError` kind), aborting the request rather
than initialization. -/
theorem C7_build_counterexample :
    buildEncoders [("struct_typ", []), ("occ_type", [])] =
      [("struct_typ", []), ("occ_type", [])] ∧
    buildEncoders [("occ_type", ["RES1"])] = [("occ_type", ["RES1"])] ∧
    encodeField (buildEncoders [("occ_type", ["RES1"])]) "struct_typ" "URM" =
      Except.error PipelineError.DataIntegrityError :=
  ⟨rfl, rfl, rfl⟩

/-- C7 (amended): the registry construction performs no build-time
validation.  It always completes with one table per categorical column;
a column observed with zero records yields an empty table, so every
subsequent encode against it fails per-request with
`UnknownCategoryError`; and a declared field absent from the data is not
detected at build - its absence surfaces only when a request encodes
through it, as the registry-lookup failure. -/
theorem C7_build_no_validation (cols : List (String × List String)) (f v : String) :
    (buildEncoders cols).map Prod.fst = cols.map Prod.fst ∧
    (alookup cols f = some [] →
      encodeField (buildEncoders cols) f v =
        Except.error PipelineError.UnknownCategoryError) ∧
    (alookup cols f = none →
      encodeField (buildEncoders cols) f v =
        Except.error PipelineError.DataIntegrityError) := by
  refine ⟨?_, ?_, ?_⟩
  · unfold buildEncoders
    rw [List.map_map]
    rfl
  · intro h
    unfold encodeField
    rw [alookup_buildEncoders, h]
    rfl
  · intro h
    unfold encodeField
    rw [alookup_buildEncoders, h]
    rfl

/-- C7 witness: a zero-record struct_typ column builds an empty table
whose every encode fails per-request, and a dataset without the
struct_typ column builds fine and errs only at lookup time. -/
theorem C7_build_no_validation_witness :
    encodeField (buildEncoders [("struct_typ", []), ("occ_type", [])])
      "struct_typ" "URM" = Except.error PipelineError.UnknownCategoryError ∧
    encodeField (buildEncoders [("occ_type", ["RES1"])]) "struct_typ" "URM" =
      Except.error PipelineError.DataIntegrityError :=
  ⟨(C7_build_no_validation [("struct_typ", []), ("occ_type", [])]
      "struct_typ" "URM").2.1 rfl,
   (C7_build_no_validation [("occ_type", ["RES1"])] "struct_typ" "URM").2.2 rfl⟩

/-- C8: a failed encode of an unseen value leaves the registry unchanged,
and every subsequent encode against the returned registry gives exactly
what it gave before the failure; values in the table still succeed. -/
theorem C8_failed_encode_preserves_registry (reg : List (String × List String))
    (f v w : String)
    (_hfail : (encodeFieldSt reg f v).1 = Except.error PipelineError.UnknownCategoryError) :
    (encodeFieldSt reg f v).2 = reg ∧
    (encodeFieldSt ((encodeFieldSt reg f v).2) f w).1 = (encodeFieldSt reg f w).1 ∧
    (∀ classes i, alookup reg f = some classes → transform classes w = some i →
      (encodeFieldSt ((encodeFieldSt reg f v).2) f w).1 = Except.ok i) := by
  refine ⟨rfl, rfl, fun classes i hc ht => ?_⟩
  show encodeField reg f w = Except.ok i
  unfold encodeField
  rw [hc]
  exact encode_ok_iff.mpr ht

/-- C8 witness: after `UNKNOWN_CODE` fails against the sample registry,
URM still encodes to 4. -/
theorem C8_failed_encode_preserves_registry_witness :
    (encodeFieldSt regC "struct_typ" "UNKNOWN_CODE").2 = regC ∧
    (encodeFieldSt ((encodeFieldSt regC "struct_typ" "UNKNOWN_CODE").2)
      "struct_typ" "URM").1 = Except.ok 4 := by
  have h := C8_failed_encode_preserves_registry regC "struct_typ" "UNKNOWN_CODE" "URM"
    (by rfl)
  exact ⟨h.1, h.2.2 (fitClasses ["W1", "URM", "C1", "S1", "PC1", "C4", "C1"]) 4
    (by decide) (by decide)⟩

/-- C9: the classifier label is displayed through the fixed enumeration
0→Safe, 1→High-Risk, 2→Collapsed; every displayed class is one of exactly
those three, and every other label has no entry. -/
theorem C9_damage_map_enumeration (n : ℤ) :
    damage_map 0 = some DamageClass.Safe ∧
    damage_map 1 = some DamageClass.HighRisk ∧
    damage_map 2 = some DamageClass.Collapsed ∧
    (∀ c, damage_map n = some c →
      (c = DamageClass.Safe ∨ c = DamageClass.HighRisk ∨ c = DamageClass.Collapsed)) ∧
    (n ≠ 0 → n ≠ 1 → n ≠ 2 → damage_map n = none) := by
  refine ⟨rfl, rfl, rfl, fun c _ => ?_, fun h0 h1 h2 => ?_⟩
  · cases c
    · exact Or.inl rfl
    · exact Or.inr (Or.inl rfl)
    · exact Or.inr (Or.inr rfl)
  · unfold damage_map
    rw [if_neg h0, if_neg h1, if_neg h2]

/-- C9 witness: label 2 displays as Collapsed and label 7 has no entry. -/
theorem C9_damage_map_enumeration_witness :
    damage_map 2 = some DamageClass.Collapsed ∧ damage_map 7 = none :=
  ⟨(C9_damage_map_enumeration 2).2.2.1,
   (C9_damage_map_enumeration 7).2.2.2.2 (by decide) (by decide) (by decide)⟩

/-- C10: if the reference structural-type column contains the six
canonical codes and the occupancy column contains each family's first
sub-code, then every selectable label pair of every locale assembles
successfully: the unknown-category branch is unreachable from the form. -/
theorem C10_ui_selections_always_encode (structVals occVals : List String)
    (reg : List (String × List String))
    (hs : ∀ c ∈ ["C1", "C4", "PC1", "S1", "URM", "W1"], c ∈ structVals)
    (ho : ∀ c ∈ ["RES1", "COM1", "IND1", "AGR1", "EDU1", "REL1", "GOV1"], c ∈ occVals)
    (hrs : alookup reg "struct_typ" = some (fitClasses structVals))
    (hro : alookup reg "occ_type" = some (fitClasses occVals))
    (lang slabel olabel : String)
    (hsl : slabel ∈ (struct_type_display lang).map Prod.fst)
    (hol : olabel ∈ (occ_type_display lang).map Prod.fst)
    (yb ns : ℤ) (m d : ℚ) :
    ∃ v, assembleFromLabels reg lang slabel olabel yb ns m d = Except.ok v := by
  obtain ⟨sc, hsc⟩ := alookup_isSome_of_mem_keys hsl
  obtain ⟨fam, hfam⟩ := alookup_isSome_of_mem_keys hol
  have hscmem : sc ∈ ["C1", "C4", "PC1", "S1", "URM", "W1"] :=
    struct_catalog_code_mem _ (struct_display_mem lang) (slabel, sc) (alookup_mem hsc)
  have hfamne : fam ≠ [] :=
    occ_catalog_families_nonempty _ (occ_display_mem lang) (olabel, fam) (alookup_mem hfam)
  obtain ⟨oc, rest, rfl⟩ := List.exists_cons_of_ne_nil hfamne
  have hocmem : oc ∈ ["RES1", "COM1", "IND1", "AGR1", "EDU1", "REL1", "GOV1"] := by
    simpa using occ_catalog_first_mem _ (occ_display_mem lang) (olabel, oc :: rest)
      (alookup_mem hfam)
  obtain ⟨si, hsi⟩ := transform_isSome (mem_fitClasses.mpr (hs sc hscmem))
  obtain ⟨oi, hoi⟩ := transform_isSome (mem_fitClasses.mpr (ho oc hocmem))
  refine ⟨[(si : ℚ), (oi : ℚ), (yb : ℚ), (ns : ℚ), m, d], ?_⟩
  unfold assembleFromLabels resolveStruct resolveOcc assemble encodeField
  rw [hsc, hfam, hrs, hro]
  simp [encode, hsi, hoi]

/-- C10 witness: the Russian wooden-frame and commercial labels assemble
successfully against the sample registry. -/
theorem C10_ui_selections_always_encode_witness :
    ∃ v, assembleFromLabels regC "ru" "Деревянный каркас (W1)"
      "Коммерческое (Commercial)" 2000 0 5 3 = Except.ok v :=
  C10_ui_selections_always_encode
    ["W1", "URM", "C1", "S1", "PC1", "C4", "C1"]
    ["RES1", "COM1", "IND1", "AGR1", "EDU1", "REL1", "GOV1"]
    regC (by decide) (by decide) (by decide) (by decide)
    "ru" "Деревянный каркас (W1)" "Коммерческое (Commercial)"
    (by decide) (by decide) 2000 0 5 3

end App
